import Mathlib

set_option maxHeartbeats 1000000

namespace LuaFun

/-!
Shallow embedding of the LuaFun orchestration core.

Part 1 models `src/luafun/ipc_send.py` (the CommandSender): a filesystem is
a map from paths to file contents, and the publish step of `ipc_send` is
modelled both as a final-state function and as the explicit list of every
intermediate filesystem state it goes through (including each stage of the
temporary-file write, one character at a time, so that a concurrent reader
is quantified over every possible interleaving point).
-/
/-- A filesystem: a map from paths to the full content of the file stored
there, `none` when no file exists at the path. -/
def FS : Type := String → Option String

/-- Opening a path for writing and writing content `c` (the state after the
write completes). -/
def FS.write (fs : FS) (p c : String) : FS :=
  fun q => if q = p then some c else fs q

/-- `os.remove(p)`. -/
def FS.remove (fs : FS) (p : String) : FS :=
  fun q => if q = p then none else fs q

/-- `os.rename(src, dst)`: `dst` now holds what `src` held, `src` is gone. -/
def FS.rename (fs : FS) (src dst : String) : FS :=
  fun q => if q = dst then fs src else if q = src then none else fs q

/-- The empty filesystem. -/
def fsEmpty : FS := fun _ => none

/-- The `data` dict passed to `ipc_send`: the code only ever touches its
`uid` key (`data['uid'] = uid`); everything else is opaque caller payload. -/
structure IpcData where
  uid : Nat
  rest : String
deriving DecidableEq, Repr

/-- A single-quote character, used by `ipc_send` to wrap the serialized
payload into a lua string literal. -/
def luaQuote : String := String.singleton (Char.ofNat 39)

/-- The artifact content written by `ipc_send`: the f-string
`return` + quote + json_string + quote (ipc_send.py line 46). -/
def luaLiteral (json_string : String) : String :=
  "return " ++ luaQuote ++ json_string ++ luaQuote

/-- Result of one `ipc_send` call: the new value of the module-level `uid`
counter (threaded explicitly), the final filesystem, and the data object
that was serialized into the artifact. -/
structure SendOutcome where
  uid : Nat
  fs : FS
  written : IpcData

/-- Embedding of `ipc_send(f2, data)` from src/luafun/ipc_send.py lines
31-49.  `json.dumps` is an opaque pure serializer, passed as `dumps`; the
module-level global `uid` is threaded as the explicit `uid` argument. -/
def ipc_send (dumps : IpcData → String) (f2 : String) (data : IpcData)
    (uid : Nat) (fs : FS) : SendOutcome :=
  -- f1 = f2 + '_tmp'
  let f1 := f2 ++ "_tmp"
  -- if os.path.exists(f2): os.remove(f2)
  let fs1 := if (fs f2).isSome then fs.remove f2 else fs
  -- uid += 1; data['uid'] = uid
  let uid1 := uid + 1
  let data1 := { data with uid := uid1 }
  -- json_string = json.dumps(data, separators=(',', ':'))
  let json_string := dumps data1
  -- with open(f1, 'w') as file: file.write(f'return ...')
  let fs2 := fs1.write f1 (luaLiteral json_string)
  -- os.rename(f1, f2)
  let fs3 := fs2.rename f1 f2
  { uid := uid1, fs := fs3, written := data1 }

/-- All intermediate states of writing content `c` to path `p`, one
character at a time: after `n` characters the file holds `c.take n`. -/
def writeStages (fs : FS) (p c : String) : List FS :=
  (List.range (c.length + 1)).map (fun n => fs.write p (c.take n))

/-- Every intermediate filesystem state of the publish step sequence of
`ipc_send`, in execution order: the initial state, the state after the
conditional `os.remove(f2)`, each stage of the write to the temporary path,
and the state after the final `os.rename(f1, f2)`. -/
def ipcSendStates (dumps : IpcData → String) (f2 : String) (data : IpcData)
    (uid : Nat) (fs : FS) : List FS :=
  let f1 := f2 ++ "_tmp"
  let fs1 := if (fs f2).isSome then fs.remove f2 else fs
  let data1 := { data with uid := uid + 1 }
  let content := luaLiteral (dumps data1)
  fs :: fs1 :: (writeStages fs1 f1 content ++ [(fs1.write f1 content).rename f1 f2])

/-- Concrete serializer used by the concrete instances below. -/
def dumps0 : IpcData → String := fun d => d.rest ++ toString d.uid

/-- A concrete pre-send filesystem: the target path holds a previous
artifact and a stale temporary file is also present. -/
def fs0 : FS := (fsEmpty.write "dst" "old").write "dst_tmp" "stale"

/-- A concrete command batch payload. -/
def data0 : IpcData := { uid := 0, rest := "xyz" }

/-- The sequence of sends of one session: each `ipc_send` threads the
module-level `uid` counter and the filesystem into the next; the result is
the list of data objects serialized into the successive artifacts. -/
def sendSeq (dumps : IpcData → String) (f2 : String) :
    Nat → FS → List IpcData → List IpcData
  | _, _, [] => []
  | uid, fs, d :: rest =>
    let r := ipc_send dumps f2 d uid fs
    r.written :: sendSeq dumps f2 r.uid r.fs rest

/-!
Part 2 models `src/luafun/game/game.py` (the Orchestrator `Dota2Game`).

Python values crossing the control bridge are modelled by `PyVal`; the
command-log events by `Message` (one optional payload per recognized
top-level key); the manager dict `self.state` and the object attributes by
the fields of `OrchState`.  Wall-clock `time.time()` is modelled as a
logical clock (the `clock` field): each call returns the current counter
and advances it.  Subprocess management, logging, and the performance
timestamp bookkeeping on snapshot `perf` objects are external effects that
no claim touches; they are elided and noted in comments at the point of
elision.
-/
/-- A Python value as seen by the control bridge. -/
inductive PyVal where
  | pynone
  | pybool (b : Bool)
  | pyint (n : Int)
  | pystr (s : String)
  | pylist (xs : List PyVal)
  | pydict (xs : List (String × PyVal))

/-- A message popped from the control-bridge request queue: either a dict
carrying `attr` / `args` / `kwargs` (`msg.get` with defaults, game.py lines
335-337), or any non-dict value. -/
inductive RpcMsg where
  | req (attr : String) (args : List PyVal) (kwargs : List (String × PyVal))
  | other (v : PyVal)

/-- One entry of a `P` (participant announce) payload:
`{"is_bot": ..., "team_id": ..., "hero": ..., "id": ...}`. -/
structure PlayerInfo where
  is_bot : Bool
  team_id : Nat
  hero : String
  id : Nat
deriving DecidableEq, Repr

/-- One parsed command-log line.  The recognized top-level keys are exactly
`E`, `P`, `A`, `DS`, `DE`, `I`; each field is `some payload` when the key
is present in the line.  `DS`/`DE` payloads are opaque (forwarded to the
excluded draft-tracking hooks only) and modelled as `Nat`. -/
structure Message where
  E : Option String := none
  P : Option (List PlayerInfo) := none
  A : Option Nat := none
  DS : Option Nat := none
  DE : Option Nat := none
  I : Option String := none
deriving DecidableEq, Repr

/-- Tag of a handler section of `_receive_message`, recorded in execution
order as the handlers run. -/
inductive HTag where
  | E | P | A | DS | DE | I
deriving DecidableEq, Repr

/-- A key of the `self.heroes` dict: `_set_hero_info` stores each hero
record under both the integer id and its string form (game.py 465-466). -/
inductive HKey where
  | int (n : Nat)
  | str (s : String)
deriving DecidableEq, Repr

/-- One hero record built by `_set_hero_info` (game.py 460-464). -/
structure Hero where
  name : String
  bot : Bool
  hid : Nat
deriving DecidableEq, Repr

/-- A per-side state snapshot (opaque payload; the `perf` object attached
to it is wall-clock bookkeeping that no claim touches). -/
abbrev Snap := Nat

/-- The Orchestrator state: the shared manager dict `self.state`
(`running`, `win`, `draft`, `game`, `http_time`, `ipc_time`, `state_time`),
the queues, and the `Dota2Game` attributes used by the tick loop and the
command-log dispatch.  `clock` is the logical wall clock. -/
structure OrchState where
  running : Bool
  win : Option Nat
  draft : Option Bool
  game : Bool
  httpTime : Option Nat
  ipcTime : Option Nat
  stateTime : Option Nat
  clock : Nat
  rpcRecv : List RpcMsg
  rpcSend : List PyVal
  ipcQueue : List (Nat × Nat × Message)
  radQueue : List Snap
  direQueue : List Snap
  appliedRad : List Snap
  appliedDire : List Snap
  replayLog : List (Snap × Snap)
  heroes : Option (List (HKey × Hero))
  bots : List Nat
  direBots : List Nat
  radBots : List Nat
  botCount : Nat
  replyCount : List (Nat × Nat)
  ready : Bool
  pendingReady : Bool
  mode1v1 : Bool
  hasExtractor : Bool

/-- The state right after `__init__` + `start_ipc`: `bot_count = 10`,
`heroes = None`, empty lists, `reply_count = defaultdict(int)` empty,
`ready = False`, `pending_ready = True`, `state['running'] = True`, no
`draft`/`win`/`game` key set yet.  (The `ipc_config` send performed by
`__init__` acts on a different file path and is part of the Part 1
model.) -/
def initState : OrchState :=
  { running := true, win := none, draft := none, game := false
  , httpTime := none, ipcTime := none, stateTime := none, clock := 0
  , rpcRecv := [], rpcSend := [], ipcQueue := []
  , radQueue := [], direQueue := [], appliedRad := [], appliedDire := []
  , replayLog := []
  , heroes := none, bots := [], direBots := [], radBots := []
  , botCount := 10, replyCount := [], ready := false, pendingReady := true
  , mode1v1 := false, hasExtractor := true }

/-- Python truthiness of `self.heroes`: falsy when it is `None` or the
empty dict (`if not self.heroes`, game.py line 497). -/
def heroesTruthy : Option (List (HKey × Hero)) → Bool
  | none => false
  | some l => !l.isEmpty

/-- Dict insert with overwrite (Python `d[k] = v`). -/
def insertH (l : List (HKey × Hero)) (k : HKey) (v : Hero) : List (HKey × Hero) :=
  (l.filter (fun e => e.1 ≠ k)) ++ [(k, v)]

/-- Lookup in the `reply_count` association list (`None` when the key is
absent from the dict). -/
def findCount : List (Nat × Nat) → Nat → Option Nat
  | [], _ => none
  | (k, v) :: rest, u => if k = u then some v else findCount rest u

/-- `defaultdict(int)` read: missing keys read as 0. -/
def lookupCount (l : List (Nat × Nat)) (u : Nat) : Nat :=
  (findCount l u).getD 0

/-- Dict write with overwrite (`reply_count[u] = c`). -/
def setCount : List (Nat × Nat) → Nat → Nat → List (Nat × Nat)
  | [], u, c => [(u, c)]
  | (k, v) :: rest, u, c =>
    if k = u then (u, c) :: rest else (k, v) :: setCount rest u c

/-- `reply_count.pop(u)`. -/
def removeCount : List (Nat × Nat) → Nat → List (Nat × Nat)
  | [], _ => []
  | (k, v) :: rest, u => if k = u then rest else (k, v) :: removeCount rest u

/-- Embedding of `Dota2Game._set_hero_info` (game.py 440-469): builds the
hero dict keyed by both the integer id and its string form, counts the
announced bots, and overwrites `self.bot_count` with that count.
`const.HERO_LOOKUP.from_name(...)['id']` is the static-resource lookup,
passed in as the pure function `hid`. -/
def setHeroInfo (hid : String → Nat) (s : OrchState) (info : List PlayerInfo) : OrchState :=
  let step := fun (acc : List (HKey × Hero) × Nat) (p : PlayerInfo) =>
    let hero : Hero := { name := p.hero, bot := p.is_bot, hid := hid p.hero }
    let hs := insertH (insertH acc.1 (HKey.int p.id) hero) (HKey.str (toString p.id)) hero
    (hs, acc.2 + (if p.is_bot then 1 else 0))
  let r := info.foldl step ([], 0)
  { s with heroes := some r.1, botCount := r.2 }

/-- Embedding of `Dota2Game._set_bot_by_faction` (game.py 471-480): clears
both side lists and re-partitions `self._bots` (ids below 5 to radiant, ids
above 4 to dire, in list order). -/
def setBotByFaction (s : OrchState) : OrchState :=
  let step := fun (acc : List Nat × List Nat) (bid : Nat) =>
    let rad := if bid < 5 then acc.1 ++ [bid] else acc.1
    let dire := if bid > 4 then acc.2 ++ [bid] else acc.2
    (rad, dire)
  let r := s.bots.foldl step ([], [])
  { s with radBots := r.1, direBots := r.2 }

/-- `Dota2Game.is_game_ready` (game.py 174-176). -/
def isGameReady (s : OrchState) : Bool :=
  s.bots.length ≥ s.botCount

/-- Embedding of `Dota2Game._receive_message` (game.py 482-541).  Returns
the new state together with the list of handler sections that ran, in
execution order.  The `log.debug` calls, the `new_draft_state` /
`end_draft` / `receive_message` base-class hooks (no-ops or prints in
`Dota2Game`) and the extractor file write mutate no orchestrator state;
they are represented only by the handler tag.  The `E` branch in
particular only logs. -/
def receiveMessage (hid : String → Nat) (s : OrchState)
    (faction : Nat) (player_id : Nat) (m : Message) : OrchState × List HTag :=
  -- error processing: `if error is not None: log; return`
  match m.E with
  | some _ => (s, [HTag.E])
  | none =>
  -- init message: `if info is not None: ...; return`
  match m.P with
  | some info =>
    -- the draft message can be missed
    let s := { s with draft := some false }
    -- See who is bot or not: `if not self.heroes: self._set_hero_info(info)`
    let s := if heroesTruthy s.heroes then s else setHeroInfo hid s info
    -- self._bots.append(int(player_id))
    let s := { s with bots := s.bots ++ [player_id] }
    let s :=
      if isGameReady s then
        -- self.state['game'] = True; self._bots.sort(); self._set_bot_by_faction()
        let s := { s with game := true, bots := s.bots.insertionSort (· ≤ ·) }
        let s := setBotByFaction s
        -- 1v1 Mid hack: self._bots = [0, 5]
        let s := if s.mode1v1 then { s with bots := [0, 5] } else s
        { s with ready := true }
      else s
    (s, [HTag.P])
  | none =>
  -- Message ack: `if ack is not None: ...; return`
  match m.A with
  | some ack =>
    let c := lookupCount s.replyCount ack + 1
    let rc := setCount s.replyCount ack c
    -- `if self.reply_count[ack] == self.bot_count: self.reply_count.pop(ack)`
    let rc := if c = s.botCount then removeCount rc ack else rc
    ({ s with replyCount := rc }, [HTag.A])
  | none =>
    -- Draft message (`DS`): sets draft True, forwards to the hook
    let r1 : OrchState × List HTag :=
      match m.DS with
      | some _ => ({ s with draft := some true }, [HTag.DS])
      | none => (s, [])
    let s := r1.1
    -- Draft end (`DE`): sets draft False, forwards the DS payload to the hook
    let r2 : OrchState × List HTag :=
      match m.DE with
      | some _ => ({ s with draft := some false }, [HTag.DE])
      | none => (s, [])
    let s := r2.1
    -- Message Info (`I`): `if self.extractor and info is not None: save`
    let r3 : OrchState × List HTag :=
      match m.I with
      | some _ => if s.hasExtractor then (s, [HTag.I]) else (s, [])
      | none => (s, [])
    -- final `self.receive_message(...)` hook: prints only
    (r3.1, r1.2 ++ r2.2 ++ r3.2)

/-- The attribute surface of the Orchestrator as seen by `hasattr` /
`getattr` (game.py 341-342): a partial map from operation names to the
bound method.  A method observes the orchestrator state and may mutate it
(`getattr(self, attr)(*args, **kwargs)` runs on `self`; for example `stop`
sets `running` to False), returning the Python return value together with
the new orchestrator state.  A name is recognized exactly when the map
returns `some`. -/
def RpcTable : Type :=
  String → Option (List PyVal → List (String × PyVal) → OrchState → PyVal × OrchState)

/-- `if result is None: result = dict(msg='none')` (game.py 344-345). -/
def pyReplace : PyVal → PyVal
  | PyVal.pynone => PyVal.pydict [("msg", PyVal.pystr "none")]
  | r => r

/-- Embedding of `Dota2Game._handle_http_rpc` (game.py 325-347): pop at
most one request; non-dict requests are answered with `dict(error=msg)`;
otherwise dispatch by attribute name, answering with the error payload
`dict(error='Object does not have attribute ...')` for unrecognized names;
a `None` result is replaced with `dict(msg='none')` before pushing. -/
def handleHttpRpc (ops : RpcTable) (s : OrchState) : OrchState :=
  match s.rpcRecv with
  | [] => s
  | m :: rest =>
    let s := { s with rpcRecv := rest }
    match m with
    | RpcMsg.other v =>
      { s with rpcSend := s.rpcSend ++ [PyVal.pydict [("error", v)]] }
    | RpcMsg.req attr args kwargs =>
      -- `result = dict(error=...)`; `if hasattr(self, attr): result = getattr(self, attr)(*args, **kwargs)`
      let r : PyVal × OrchState :=
        match ops attr with
        | none => (PyVal.pydict [("error", PyVal.pystr ("Object does not have attribute " ++ attr))], s)
        | some f => f args kwargs s
      -- `if result is None: ...`; `self.http_rpc_send.put(result)` on the state the method left
      { r.2 with rpcSend := r.2.rpcSend ++ [pyReplace r.1] }

/-- Embedding of `Dota2Game._handle_ipc` (game.py 349-354): pop at most
one command-log event and dispatch it to `_receive_message`. -/
def handleIpc (hid : String → Nat) (s : OrchState) : OrchState :=
  match s.ipcQueue with
  | [] => s
  | (f, p, m) :: rest =>
    (receiveMessage hid { s with ipcQueue := rest } f p m).1

/-- `time.time()` as a logical clock: returns the current counter and
advances it. -/
def readClock (s : OrchState) : Nat × OrchState :=
  (s.clock, { s with clock := s.clock + 1 })

/-- Embedding of `Dota2Game.stop` (game.py 298-323) as far as the shared
state is concerned: `self.state['running'] = False`.  The subprocess
polling/termination and the extractor/replay file closes are external
process effects. -/
def stopGame (s : OrchState) : OrchState :=
  { s with running := false }

/-- Embedding of `Dota2Game._get_next` (game.py 209-234): the polling loop
taking one snapshot from each side queue.  `fuel` bounds the modelled loop
iterations; `none` means the loop had not exited within `fuel` iterations
(the source keeps spinning until both sides produced a snapshot or
`running` turns false).  The `m['perf']` receive-timestamp bookkeeping and
the queue-depth backpressure warning are elided (log/perf only). -/
def getNextLoop : Nat → Bool → Option Snap → Option Snap → List Snap → List Snap →
    Option (Option Snap × Option Snap × List Snap × List Snap)
  | fuel, running, m1, m2, q1, q2 =>
    -- `while self.running:`
    if running then
      match fuel with
      | 0 => none
      | fuel + 1 =>
        -- `if m1 is None and not q1.empty(): m1 = q1.get()`
        let r1 : Option Snap × List Snap :=
          match m1, q1 with
          | none, x :: rest => (some x, rest)
          | m1, q1 => (m1, q1)
        -- `if m2 is None and not q2.empty(): m2 = q2.get()`
        let r2 : Option Snap × List Snap :=
          match m2, q2 with
          | none, x :: rest => (some x, rest)
          | m2, q2 => (m2, q2)
        -- `if m1 and m2: break`
        if r1.1.isSome && r2.1.isSome then some (r1.1, r2.1, r1.2, r2.2)
        else getNextLoop fuel running r1.1 r2.1 r1.2 r2.2
    else some (m1, m2, q1, q2)

/-- Embedding of `Dota2Game._handle_state` (game.py 356-375): take one
snapshot per side via `_get_next` (radiant queue first argument, dire queue
second); if either is `None` return without touching `state_time`;
otherwise save the replay pair, apply dire then radiant (the
`update_*_state` base-class hooks, recorded in the applied logs), and store
the elapsed cost under `state['state_time']`. -/
def handleState (fuel : Nat) (s : OrchState) : Option OrchState :=
  let r0 := readClock s
  let t0 := r0.1
  let s := r0.2
  match getNextLoop fuel s.running none none s.radQueue s.direQueue with
  | none => none
  | some (radiant, dire, radQ, direQ) =>
    let s := { s with radQueue := radQ, direQueue := direQ }
    match radiant, dire with
    | some r, some d =>
      let s := { s with replayLog := s.replayLog ++ [(r, d)] }
      let s := { s with appliedDire := s.appliedDire ++ [d] }
      let s := { s with appliedRad := s.appliedRad ++ [r] }
      let r1 := readClock s
      some { r1.2 with stateTime := some (r1.1 - t0) }
    | _, _ => some s

/-- Phase markers of one `_tick`, recorded in the order the tick performs
them. -/
inductive TickPhase where
  | terminal | bridge | ipc | stateStep
deriving DecidableEq, Repr

/-- First section of `_tick` (game.py 377-390): evaluate the terminal
conditions — `if not self.running: self.stop(); stop = True` and
`if winner is not None: self.stop(); stop = True`. -/
def tickTerminal (s : OrchState) : (OrchState × Bool) × List TickPhase :=
  let stop := false
  let r1 : OrchState × Bool :=
    if s.running then (s, stop) else (stopGame s, true)
  let s := r1.1
  let r2 : OrchState × Bool :=
    match s.win with
    | some _ => (stopGame s, true)
    | none => (s, r1.2)
  (r2, [TickPhase.terminal])

/-- Second section of `_tick` (game.py 392-395): service the control
bridge, recording the elapsed cost under `state['http_time']`. -/
def tickBridge (ops : RpcTable) (s : OrchState) : OrchState × List TickPhase :=
  let r0 := readClock s
  let s := handleHttpRpc ops r0.2
  let r1 := readClock s
  ({ r1.2 with httpTime := some (r1.1 - r0.1) }, [TickPhase.bridge])

/-- Third section of `_tick` (game.py 397-400): service the command-log
receiver, recording the elapsed cost under `state['ipc_time']`. -/
def tickIpc (hid : String → Nat) (s : OrchState) : OrchState × List TickPhase :=
  let r0 := readClock s
  let s := handleIpc hid r0.2
  let r1 := readClock s
  ({ r1.2 with ipcTime := some (r1.1 - r0.1) }, [TickPhase.ipc])

/-- Fourth section of `_tick` (game.py 402): the snapshot step. -/
def tickState (fuel : Nat) (s : OrchState) : Option OrchState × List TickPhase :=
  (handleState fuel s, [TickPhase.stateStep])

/-- Embedding of `Dota2Game._tick` (game.py 377-410), sequencing the four
sections in source order and concatenating their phase markers in the
order they ran.  The result is `none` when the snapshot polling loop did
not exit within `fuel` iterations; otherwise the new state and the `stop`
flag returned by `_tick`. -/
def tick (ops : RpcTable) (hid : String → Nat) (fuel : Nat) (s : OrchState) :
    Option (OrchState × Bool) × List TickPhase :=
  let r1 := tickTerminal s
  let stop := r1.1.2
  let r2 := tickBridge ops r1.1.1
  let r3 := tickIpc hid r2.1
  let r4 := tickState fuel r3.1
  let res :=
    match r4.1 with
    | none => none
    | some s =>
      -- `if self.pending_ready and self.ready: self.pending_ready = False`
      let s := if s.pendingReady && s.ready then { s with pendingReady := false } else s
      some (s, stop)
  (res, r1.2 ++ r2.2 ++ r3.2 ++ r4.2)

/-- Presence of a handler key in a line (for `I`, the source additionally
requires the extractor to be configured). -/
def tagPresent : HTag → Message → Bool → Bool
  | HTag.E, m, _ => m.E.isSome
  | HTag.P, m, _ => m.P.isSome
  | HTag.A, m, _ => m.A.isSome
  | HTag.DS, m, _ => m.DS.isSome
  | HTag.DE, m, _ => m.DE.isSome
  | HTag.I, m, ext => m.I.isSome && ext

/-- Modelled from the claim C4's words: a line carrying several recognized
keys has EACH present key's handler run, in the priority order
`E, P, A, DS, DE, I` — i.e. the handler trace would be the presence-filter
of the priority list. -/
def statedTrace (m : Message) (ext : Bool) : List HTag :=
  [HTag.E, HTag.P, HTag.A, HTag.DS, HTag.DE, HTag.I].filter
    (fun t => tagPresent t m ext)

/-- Modelled from the amended claim's words: keys are tested in the
priority order `E, P, A, DS, DE, I`; the first present key among `E`, `P`,
`A` runs its handler and ends processing of the line; `DS`, `DE`, `I` do
not short-circuit — each present one runs, in that order. -/
def specTrace (m : Message) (ext : Bool) : List HTag :=
  if m.E.isSome then [HTag.E]
  else if m.P.isSome then [HTag.P]
  else if m.A.isSome then [HTag.A]
  else (if m.DS.isSome then [HTag.DS] else [])
    ++ (if m.DE.isSome then [HTag.DE] else [])
    ++ (if m.I.isSome && ext then [HTag.I] else [])

/-- The snapshot-step footprint: `t` preserves the fields of `s` that the
snapshot step reads or appends to. -/
def FramePreserved (s t : OrchState) : Prop :=
  t.running = s.running ∧ t.win = s.win ∧ t.radQueue = s.radQueue
  ∧ t.direQueue = s.direQueue ∧ t.appliedRad = s.appliedRad
  ∧ t.appliedDire = s.appliedDire

/-!  Concrete fixtures used by counterexamples and witnesses. -/
/-- Concrete stand-in for the static hero-id lookup. -/
def hid0 : String → Nat := fun _ => 0

/-- The ten-player announce payload from the source comment
(game.py 445-456). -/
def info10 : List PlayerInfo :=
  [ { is_bot := true, team_id := 2, hero := "npc_dota_hero_antimage", id := 0 }
  , { is_bot := true, team_id := 2, hero := "npc_dota_hero_axe", id := 1 }
  , { is_bot := true, team_id := 2, hero := "npc_dota_hero_bane", id := 2 }
  , { is_bot := true, team_id := 2, hero := "npc_dota_hero_bloodseeker", id := 3 }
  , { is_bot := true, team_id := 2, hero := "npc_dota_hero_crystal_maiden", id := 4 }
  , { is_bot := true, team_id := 3, hero := "npc_dota_hero_drow_ranger", id := 5 }
  , { is_bot := true, team_id := 3, hero := "npc_dota_hero_earthshaker", id := 6 }
  , { is_bot := true, team_id := 3, hero := "npc_dota_hero_juggernaut", id := 7 }
  , { is_bot := true, team_id := 3, hero := "npc_dota_hero_mirana", id := 8 }
  , { is_bot := true, team_id := 3, hero := "npc_dota_hero_nevermore", id := 9 } ]

/-- A participant-announce line carrying the full player list. -/
def pMsg : Message := { P := some info10 }

/-- The session state after the ten expected `P` announce events
(player ids 0..9, radiant faction for ids below 5). -/
def s10 : OrchState :=
  (List.range 10).foldl
    (fun s pid => (receiveMessage hid0 s (if pid < 5 then 2 else 3) pid pMsg).1)
    initState

/-- The session state after an eleventh `P` announce event (a duplicate
announce for player id 3) processed after the Roster is complete. -/
def s11 : OrchState := (receiveMessage hid0 s10 2 3 pMsg).1

/-- An acknowledgment line for command uid 7. -/
def aMsg : Message := { A := some 7 }

/-- The session state after `n` acknowledgment events for uid 7, starting
from the initial state (expected participant count 10). -/
def ackRun (n : Nat) : OrchState :=
  (List.range n).foldl (fun s _ => (receiveMessage hid0 s 2 0 aMsg).1) initState

/-- A command-log line carrying both an `E` key and a `P` key. -/
def mEP : Message := { E := some "boom", P := some info10 }

/-- An empty operation table (no recognized names). -/
def ops0 : RpcTable := fun _ => none

/-- An operation table recognizing `stop`, modelling `Dota2Game.stop`:
the method sets `state['running'] = False` and returns `None`. -/
def ops1 : RpcTable :=
  fun a => if a = "stop" then some (fun _ _ t => (PyVal.pynone, stopGame t)) else none

/-- An operation table recognizing `performance_counters`, returning a
non-`None` value. -/
def ops2 : RpcTable :=
  fun a => if a = "performance_counters" then some (fun _ _ t => (PyVal.pyint 3, t)) else none

/-- A running session with exactly one snapshot queued on each side. -/
def sRD : OrchState := { initState with radQueue := [11], direQueue := [22] }

/-- Every operation the table recognizes leaves the snapshot-step
footprint of the orchestrator (running flag, win value, side queues,
applied logs) unchanged.  The real attribute surface contains operations
that violate this — `stop` sets `running` to False. -/
def OpsPreserveFrame (ops : RpcTable) : Prop :=
  ∀ attr f, ops attr = some f →
    ∀ (args : List PyVal) (kwargs : List (String × PyVal)) (t : OrchState),
      FramePreserved t (f args kwargs t).2

/-- A running session with one snapshot queued per side and a `stop`
request pending on the control bridge. -/
def sStop : OrchState :=
  { initState with
    radQueue := [11]
    direQueue := [22]
    rpcRecv := [RpcMsg.req "stop" [] []] }

/-! ## Theorems -/

/-- The last intermediate state is exactly the final state computed by
`ipc_send` (coherence of the two views of the publish step sequence). -/
theorem ipcSendStates_getLast (dumps : IpcData → String) (f2 : String)
    (data : IpcData) (uid : Nat) (fs : FS) :
    (ipcSendStates dumps f2 data uid fs).getLast? = some (ipc_send dumps f2 data uid fs).fs := by
  simp only [ipcSendStates, ipc_send]
  rw [List.getLast?_cons_cons, ← List.cons_append, List.getLast?_concat]

/-- The temporary path differs from the target path. -/
theorem tmp_ne (f2 : String) : f2 ++ "_tmp" ≠ f2 := by
  intro h
  have hlen := congrArg String.length h
  simp [String.length_append] at hlen
  exact absurd hlen (by decide)

/-- C1 (amended): over every intermediate filesystem state of the publish
step sequence of `ipc_send`, a reader polling the target path observes
either the previous complete artifact, the new complete artifact, or no
artifact at all (the target is briefly absent between its removal and the
rename) — never a truncated or partially written one. -/
theorem C1_amended_holds (dumps : IpcData → String) (f2 : String)
    (data : IpcData) (uid : Nat) (fs : FS) (prev : String)
    (hprev : fs f2 = some prev) :
    ∀ st ∈ ipcSendStates dumps f2 data uid fs,
      st f2 = some prev
      ∨ st f2 = some (luaLiteral (dumps { data with uid := uid + 1 }))
      ∨ st f2 = none := by
  intro st hst
  have hne : ¬ (f2 = f2 ++ "_tmp") := fun h => tmp_ne f2 h.symm
  have hsome : (fs f2).isSome = true := by rw [hprev]; rfl
  simp only [ipcSendStates, writeStages, hsome, if_true, List.mem_cons,
    List.mem_append, List.mem_map, List.mem_range] at hst
  rcases hst with rfl | rfl | ⟨n, _, rfl⟩ | rfl | h
  · exact Or.inl hprev
  · exact Or.inr (Or.inr (by simp [FS.remove]))
  · exact Or.inr (Or.inr (by simp [FS.write, FS.remove, hne]))
  · exact Or.inr (Or.inl (by simp [FS.rename, FS.write, FS.remove]))
  · exact absurd h (List.not_mem_nil st)

/-- Witness for C1 (amended) at a concrete filesystem, payload and counter,
read at the first intermediate state of the publish sequence. -/
theorem C1_witness :
    fs0 "dst" = some "old"
    ∨ fs0 "dst" = some (luaLiteral (dumps0 { data0 with uid := 0 + 1 }))
    ∨ fs0 "dst" = none :=
  C1_amended_holds dumps0 "dst" data0 0 fs0 "old" (by decide) fs0
    (by simp [ipcSendStates])

/-- C1 as stated is false on the code: because `ipc_send` deletes the
target path before the rename, there is an intermediate state of the
publish step sequence in which the target path holds neither the previous
complete artifact nor the new complete artifact (it holds no file at
all). -/
theorem C1_counterexample :
    ¬ ∀ st ∈ ipcSendStates dumps0 "dst" data0 0 fs0,
        st "dst" = some "old"
        ∨ st "dst" = some (luaLiteral (dumps0 { data0 with uid := 0 + 1 })) := by
  decide

/-- C6 (amended): before the write of the outbound command artifact, the
file that `ipc_send` removes when it exists is the TARGET path (the target
is deleted before the rename); a stale temporary file is not separately
deleted before the write — at the state right after the removal step the
stale temporary content is still present while the target is gone. -/
theorem C6_amended_holds (dumps : IpcData → String) (f2 : String)
    (data : IpcData) (uid : Nat) (fs : FS) (prev tmpc : String)
    (hprev : fs f2 = some prev) (htmp : fs (f2 ++ "_tmp") = some tmpc) :
    ((ipcSendStates dumps f2 data uid fs).getD 1 fsEmpty) f2 = none
    ∧ ((ipcSendStates dumps f2 data uid fs).getD 1 fsEmpty) (f2 ++ "_tmp") = some tmpc := by
  have hsome : (fs f2).isSome = true := by rw [hprev]; rfl
  have hne : ¬ (f2 ++ "_tmp" = f2) := tmp_ne f2
  constructor
  · simp [ipcSendStates, hsome, FS.remove]
  · simp [ipcSendStates, hsome, FS.remove, hne, htmp]

/-- Witness for C6 (amended) at a concrete filesystem with a previous
artifact at the target and a stale temporary file. -/
theorem C6_witness :
    ((ipcSendStates dumps0 "dst" data0 0 fs0).getD 1 fsEmpty) "dst" = none
    ∧ ((ipcSendStates dumps0 "dst" data0 0 fs0).getD 1 fsEmpty) ("dst" ++ "_tmp") = some "stale" :=
  C6_amended_holds dumps0 "dst" data0 0 fs0 "old" "stale" (by decide) (by decide)

/-- C6 as stated is false on the code: `ipc_send` removes the TARGET path
`f2` (not the temporary path) when it exists.  At the intermediate state
right after the removal step, the target — which held an artifact — is
gone before the rename happens, while the stale temporary file is still
there untouched. -/
theorem C6_counterexample :
    fs0 "dst" = some "old"
    ∧ fs0 "dst_tmp" = some "stale"
    ∧ ((ipcSendStates dumps0 "dst" data0 0 fs0).getD 1 fsEmpty) "dst" = none
    ∧ ((ipcSendStates dumps0 "dst" data0 0 fs0).getD 1 fsEmpty) "dst_tmp" = some "stale" := by
  decide

theorem sendSeq_uids (dumps : IpcData → String) (f2 : String)
    (ds : List IpcData) :
    ∀ (uid : Nat) (fs : FS),
      (sendSeq dumps f2 uid fs ds).map IpcData.uid = List.range' (uid + 1) ds.length := by
  induction ds with
  | nil => intro uid fs; simp [sendSeq]
  | cons d rest ih =>
    intro uid fs
    simp [sendSeq, ipc_send, List.range'_succ, ih]

theorem pairwise_lt_range' (n : Nat) :
    ∀ s : Nat, List.Pairwise (· < ·) (List.range' s n) := by
  induction n with
  | zero => intro s; simp
  | succ m ih =>
    intro s
    rw [List.range'_succ]
    refine List.Pairwise.cons ?_ (ih (s + 1))
    intro b hb
    have := (List.mem_range'_1.mp hb).1
    omega

/-- C7: within one session (the counter starting at its module-level
initial value 0), the `uid` values embedded in the successive outbound
artifacts are exactly 1, 2, ..., n — strictly increasing and never reused —
and each send stores the new counter value under the `uid` field of the
data serialized into the artifact now at the target path. -/
theorem C7_uids_strictly_increasing (dumps : IpcData → String) (f2 : String)
    (fs : FS) (ds : List IpcData) :
    ((sendSeq dumps f2 0 fs ds).map IpcData.uid = List.range' 1 ds.length)
    ∧ List.Pairwise (· < ·) ((sendSeq dumps f2 0 fs ds).map IpcData.uid)
    ∧ ((sendSeq dumps f2 0 fs ds).map IpcData.uid).Nodup
    ∧ (∀ (d : IpcData) (uid : Nat) (fsx : FS),
        (ipc_send dumps f2 d uid fsx).written.uid = uid + 1
        ∧ (ipc_send dumps f2 d uid fsx).fs f2
            = some (luaLiteral (dumps (ipc_send dumps f2 d uid fsx).written))) := by
  have huids := sendSeq_uids dumps f2 ds 0 fs
  refine ⟨huids, ?_, ?_, ?_⟩
  · rw [huids]; exact pairwise_lt_range' ds.length 1
  · rw [huids]
    exact List.Pairwise.imp Nat.ne_of_lt (pairwise_lt_range' ds.length 1)
  · intro d uid fsx
    refine ⟨rfl, ?_⟩
    simp [ipc_send, FS.rename, FS.write]

/-- C10: every processed `P` (participant announce) event — every line
whose `P` handler actually runs, i.e. with `P` present and no `E` key
short-circuiting it — sets `SessionState.draft` to `False` as its first
side effect, regardless of the previous value of the flag and whether any
`DE` event was ever received. -/
theorem C10_p_event_clears_draft (hid : String → Nat) (s : OrchState)
    (faction player_id : Nat) (m : Message) (info : List PlayerInfo)
    (hE : m.E = none) (hP : m.P = some info) :
    ((receiveMessage hid s faction player_id m).1).draft = some false := by
  unfold receiveMessage
  rw [hE, hP]
  dsimp only
  split_ifs <;> simp [setHeroInfo, setBotByFaction]

/-- Witness for C10: a `P` announce processed in the initial session state
(where no draft key was ever set) leaves `draft = False`. -/
theorem C10_witness :
    ((receiveMessage hid0 initState 2 0 pMsg).1).draft = some false :=
  C10_p_event_clears_draft hid0 initState 2 0 pMsg info10 rfl rfl

/-- C4 (amended): the recognized keys are tested in the priority order
`E, P, A, DS, DE, I` and handlers run in that order, but the first present
key among `E`, `P`, `A` ends processing of the line (later keys are
skipped); only `DS`, `DE`, `I` are non-short-circuiting.  The handler
trace of `_receive_message` is exactly `specTrace`, and every produced
trace respects the priority order. -/
theorem C4_amended_holds (hid : String → Nat) (s : OrchState) (f p : Nat)
    (m : Message) :
    (receiveMessage hid s f p m).2 = specTrace m s.hasExtractor
    ∧ (specTrace m s.hasExtractor).Sublist
        [HTag.E, HTag.P, HTag.A, HTag.DS, HTag.DE, HTag.I] := by
  obtain ⟨E, P, A, DS, DE, I⟩ := m
  constructor
  · cases E <;> cases P <;> cases A <;> cases DS <;> cases DE <;> cases I <;>
      cases hext : s.hasExtractor <;>
      simp [receiveMessage, specTrace, hext]
  · cases E <;> cases P <;> cases A <;> cases DS <;> cases DE <;> cases I <;>
      cases hext : s.hasExtractor <;>
      simp [specTrace, hext] <;> decide

/-- C4 is false as stated: a line carrying both `E` and `P` runs only the
`E` handler — the `P` handler is skipped because the `E` branch returns.
The claim predicts the trace `[E, P]`; the code produces `[E]`. -/
theorem C4_counterexample :
    (receiveMessage hid0 initState 2 0 mEP).2 = [HTag.E]
    ∧ statedTrace mEP initState.hasExtractor = [HTag.E, HTag.P]
    ∧ ([HTag.E] : List HTag) ≠ [HTag.E, HTag.P] := by
  refine ⟨rfl, by decide, by decide⟩

/-- C2 (amended): the hero/bot mapping (`self.heroes`, with the derived
expected bot count) is constructed at most once per session — every `P`
event processed once the mapping is non-empty leaves the mapping and the
expected count unchanged.  The side-specific bot lists, by contrast, are
recomputed by each completing `P` event and are NOT immutable (see the
counterexample). -/
theorem C2_amended_holds (hid : String → Nat) (s : OrchState) (f p : Nat)
    (m : Message) (info : List PlayerInfo)
    (hE : m.E = none) (hP : m.P = some info)
    (hH : heroesTruthy s.heroes = true) :
    ((receiveMessage hid s f p m).1).heroes = s.heroes
    ∧ ((receiveMessage hid s f p m).1).botCount = s.botCount := by
  unfold receiveMessage
  rw [hE, hP]
  dsimp only
  split_ifs <;> simp_all [setHeroInfo, setBotByFaction]

/-- Witness for C2 (amended): the eleventh announce after the complete
ten-player roster leaves the hero mapping and the bot count unchanged. -/
theorem C2_witness :
    ((receiveMessage hid0 s10 2 3 pMsg).1).heroes = s10.heroes
    ∧ ((receiveMessage hid0 s10 2 3 pMsg).1).botCount = s10.botCount :=
  C2_amended_holds hid0 s10 2 3 pMsg info10 rfl rfl (by decide)

/-- C2 is false as stated: after the Roster is complete (hero mapping
built, session ready, side lists `[0..4]` / `[5..9]`), one more `P` event
for player id 3 appends the id to the bot list again and re-partitions the
side lists, changing the radiant list to `[0, 1, 2, 3, 3, 4]`. -/
theorem C2_counterexample :
    heroesTruthy s10.heroes = true
    ∧ s10.ready = true
    ∧ s10.radBots = [0, 1, 2, 3, 4]
    ∧ s10.direBots = [5, 6, 7, 8, 9]
    ∧ s11.radBots = [0, 1, 2, 3, 3, 4]
    ∧ s11.radBots ≠ s10.radBots := by
  decide

/-- `findCount` misses keys that are not in the dict. -/
theorem findCount_eq_none_of_not_mem (l : List (Nat × Nat)) (u : Nat)
    (h : u ∉ l.map Prod.fst) : findCount l u = none := by
  induction l with
  | nil => rfl
  | cons e rest ih =>
    obtain ⟨k, v⟩ := e
    have hne : ¬ (k = u) := fun hk => h (by simp [hk])
    have hrest : u ∉ rest.map Prod.fst := fun hm => h (by simp [hm])
    simp [findCount, hne, ih hrest]

theorem findCount_setCount_self (l : List (Nat × Nat)) (u c : Nat) :
    findCount (setCount l u c) u = some c := by
  induction l with
  | nil => simp [setCount, findCount]
  | cons e rest ih =>
    obtain ⟨k, v⟩ := e
    by_cases hk : k = u
    · simp [setCount, hk, findCount]
    · simp [setCount, hk, findCount, ih]

theorem findCount_setCount_ne (l : List (Nat × Nat)) (u c v : Nat)
    (hne : v ≠ u) : findCount (setCount l u c) v = findCount l v := by
  induction l with
  | nil => simp [setCount, findCount, Ne.symm hne]
  | cons e rest ih =>
    obtain ⟨k, w⟩ := e
    by_cases hk : k = u
    · simp [setCount, hk, findCount, Ne.symm hne]
    · simp [setCount, hk, findCount, ih]

theorem findCount_removeCount_ne (l : List (Nat × Nat)) (u v : Nat)
    (hne : v ≠ u) : findCount (removeCount l u) v = findCount l v := by
  induction l with
  | nil => rfl
  | cons e rest ih =>
    obtain ⟨k, w⟩ := e
    by_cases hk : k = u
    · simp [removeCount, hk, findCount, Ne.symm hne]
    · simp [removeCount, hk, findCount, ih]

theorem removeCount_setCount (l : List (Nat × Nat)) (u c : Nat) :
    removeCount (setCount l u c) u = removeCount l u := by
  induction l with
  | nil => simp [setCount, removeCount]
  | cons e rest ih =>
    obtain ⟨k, v⟩ := e
    by_cases hk : k = u
    · simp [setCount, hk, removeCount]
    · simp [setCount, hk, removeCount, ih]

theorem findCount_removeCount_self (l : List (Nat × Nat)) (u : Nat)
    (hnd : (l.map Prod.fst).Nodup) : findCount (removeCount l u) u = none := by
  induction l with
  | nil => rfl
  | cons e rest ih =>
    obtain ⟨k, v⟩ := e
    simp only [List.map_cons, List.nodup_cons] at hnd
    by_cases hk : k = u
    · subst hk
      simp only [removeCount, if_pos rfl]
      exact findCount_eq_none_of_not_mem rest k hnd.1
    · simp [removeCount, hk, findCount, ih hnd.2]

/-- C3 (amended): processing an `A` event for uid `u` increments the
acknowledgment counter of `u` (leaving every other counter untouched), and
the counter is retired — removed from the tracking dict — exactly when the
incremented value equals the expected participant count.  It stays absent
only until a further `A` event for the same uid arrives: such an event
re-creates the counter at 1 (see the counterexample).  Concretely, with
the expected count of 10, ten `A` events for a uid retire it while nine
leave it pending at 9. -/
theorem C3_amended_holds :
    (∀ (hid : String → Nat) (s : OrchState) (f p u : Nat) (m : Message),
      m.E = none → m.P = none → m.A = some u →
      (s.replyCount.map Prod.fst).Nodup →
      (findCount ((receiveMessage hid s f p m).1).replyCount u
          = if lookupCount s.replyCount u + 1 = s.botCount then none
            else some (lookupCount s.replyCount u + 1))
      ∧ (∀ v, v ≠ u →
          findCount ((receiveMessage hid s f p m).1).replyCount v
            = findCount s.replyCount v))
    ∧ findCount (ackRun 10).replyCount 7 = none
    ∧ findCount (ackRun 9).replyCount 7 = some 9 := by
  refine ⟨?_, by decide, by decide⟩
  intro hid s f p u m hE hP hA hnd
  unfold receiveMessage
  rw [hE, hP, hA]
  dsimp only
  constructor
  · split_ifs with hc
    · rw [removeCount_setCount]
      exact findCount_removeCount_self s.replyCount u hnd
    · exact findCount_setCount_self s.replyCount u _
  · intro v hv
    split_ifs with hc
    · rw [findCount_removeCount_ne _ _ _ hv, findCount_setCount_ne _ _ _ _ hv]
    · rw [findCount_setCount_ne _ _ _ _ hv]

/-- Witness for C3 (amended): an `A` event for uid 7 whose counter stands
at 3 (expected count 10) leaves the counter at 4, still pending. -/
theorem C3_witness :
    findCount ((receiveMessage hid0 { initState with replyCount := [(7, 3)] }
        2 0 aMsg).1).replyCount 7 = some 4 := by
  have h := (C3_amended_holds.1 hid0 { initState with replyCount := [(7, 3)] }
      2 0 7 aMsg rfl rfl rfl (by decide)).1
  rw [h]
  decide

/-- C3 is false as stated: the retired counter for uid 7 (absent after the
tenth `A` event) is NOT absent for all subsequently processed events — an
eleventh `A` event for the same uid re-creates it with value 1. -/
theorem C3_counterexample :
    initState.botCount = 10
    ∧ findCount (ackRun 10).replyCount 7 = none
    ∧ findCount (ackRun 11).replyCount 7 = some 1 := by
  decide

/-- C5 (amended): every tick executes its sections in the fixed source
order: terminal-condition evaluation FIRST (the running flag and the win
value are checked, and `stop()` is invoked on them, at the start of the
tick, determining the returned stop flag), then (2) the control bridge is
serviced recording `http_time`, then (3) the command-log receiver is
serviced recording `ipc_time`, then (4)-(5) one snapshot per side is
acquired and applied recording `state_time`. -/
theorem C5_amended_holds (ops : RpcTable) (hid : String → Nat) (fuel : Nat)
    (s : OrchState) :
    (tick ops hid fuel s).2
      = [TickPhase.terminal, TickPhase.bridge, TickPhase.ipc, TickPhase.stateStep] := rfl

/-- C5 is false as stated: the tick evaluates the terminal conditions at
the START of the tick, not after the other steps — the phase trace of a
concrete tick puts the terminal evaluation first, which differs from the
order the claim requires (bridge, receiver, snapshots, then terminal). -/
theorem C5_counterexample :
    (tick ops0 hid0 1 initState).2
      = [TickPhase.terminal, TickPhase.bridge, TickPhase.ipc, TickPhase.stateStep]
    ∧ [TickPhase.terminal, TickPhase.bridge, TickPhase.ipc, TickPhase.stateStep]
      ≠ [TickPhase.bridge, TickPhase.ipc, TickPhase.stateStep, TickPhase.terminal] := by
  exact ⟨rfl, by decide⟩

/-- C9 (amended): for a control-bridge request `{attr, args, kwargs}`, the
pushed response is the named operation's return value when the name is
recognized on the Orchestrator — except that a `None` return value is
replaced by the payload `{msg: 'none'}` — and the structured payload
`{error: reason}` when the name is not recognized. -/
theorem C9_amended_holds (ops : RpcTable) (s : OrchState) (attr : String)
    (args : List PyVal) (kwargs : List (String × PyVal)) (rest : List RpcMsg)
    (hq : s.rpcRecv = RpcMsg.req attr args kwargs :: rest) :
    (∀ f, ops attr = some f →
        (handleHttpRpc ops s).rpcSend
          = (f args kwargs { s with rpcRecv := rest }).2.rpcSend
            ++ [pyReplace (f args kwargs { s with rpcRecv := rest }).1])
    ∧ (ops attr = none →
        (handleHttpRpc ops s).rpcSend = s.rpcSend
          ++ [PyVal.pydict [("error",
                PyVal.pystr ("Object does not have attribute " ++ attr))]]) := by
  constructor
  · intro f hf
    unfold handleHttpRpc
    rw [hq]
    dsimp only
    rw [hf]
  · intro hf
    unfold handleHttpRpc
    rw [hq]
    dsimp only
    rw [hf]
    rfl

/-- Witness for C9 (amended): a request for the recognized operation
`performance_counters` (returning the value 3) pushes 3 to the response
queue. -/
theorem C9_witness :
    (handleHttpRpc ops2
        { initState with rpcRecv := [RpcMsg.req "performance_counters" [] []] }).rpcSend
      = [PyVal.pyint 3] := by
  have h := (C9_amended_holds ops2
      { initState with rpcRecv := [RpcMsg.req "performance_counters" [] []] }
      "performance_counters" [] [] [] rfl).1 (fun _ _ t => (PyVal.pyint 3, t)) rfl
  rw [h]
  rfl

/-- C9 is false as stated: a recognized operation returning `None` (for
example `stop`) does not get its return value pushed — the pushed response
is the substituted payload `{msg: 'none'}`, which is not the return
value. -/
theorem C9_counterexample :
    (handleHttpRpc ops1 { initState with rpcRecv := [RpcMsg.req "stop" [] []] }).rpcSend
      = [PyVal.pydict [("msg", PyVal.pystr "none")]]
    ∧ PyVal.pydict [("msg", PyVal.pystr "none")] ≠ PyVal.pynone :=
  ⟨rfl, fun h => PyVal.noConfusion h⟩

theorem frame_trans {s t u : OrchState}
    (h1 : FramePreserved s t) (h2 : FramePreserved t u) : FramePreserved s u :=
  ⟨h2.1.trans h1.1,
   h2.2.1.trans h1.2.1,
   h2.2.2.1.trans h1.2.2.1,
   h2.2.2.2.1.trans h1.2.2.2.1,
   h2.2.2.2.2.1.trans h1.2.2.2.2.1,
   h2.2.2.2.2.2.trans h1.2.2.2.2.2⟩

theorem frame_handleHttpRpc (ops : RpcTable) (hops : OpsPreserveFrame ops)
    (s : OrchState) : FramePreserved s (handleHttpRpc ops s) := by
  unfold handleHttpRpc
  cases hq : s.rpcRecv with
  | nil =>
    exact ⟨rfl, rfl, rfl, rfl, rfl, rfl⟩
  | cons m rest =>
    cases m with
    | other v => exact ⟨rfl, rfl, rfl, rfl, rfl, rfl⟩
    | req attr args kwargs =>
      have key : FramePreserved { s with rpcRecv := rest }
          ((match ops attr with
            | none => (PyVal.pydict [("error",
                PyVal.pystr ("Object does not have attribute " ++ attr))],
                { s with rpcRecv := rest })
            | some f => f args kwargs { s with rpcRecv := rest } :
              PyVal × OrchState)).2 := by
        cases hattr : ops attr with
        | none => exact ⟨rfl, rfl, rfl, rfl, rfl, rfl⟩
        | some f => exact hops attr f hattr args kwargs { s with rpcRecv := rest }
      have h1 : FramePreserved s { s with rpcRecv := rest } :=
        ⟨rfl, rfl, rfl, rfl, rfl, rfl⟩
      exact frame_trans h1 key

theorem frame_receiveMessage (hid : String → Nat) (s : OrchState)
    (f p : Nat) (m : Message) :
    FramePreserved s (receiveMessage hid s f p m).1 := by
  obtain ⟨E, P, A, DS, DE, I⟩ := m
  cases E <;> cases P <;> cases A <;> cases DS <;> cases DE <;> cases I <;>
    · unfold receiveMessage FramePreserved
      dsimp only
      (try split_ifs) <;> simp [setHeroInfo, setBotByFaction]

theorem frame_handleIpc (hid : String → Nat) (s : OrchState) :
    FramePreserved s (handleIpc hid s) := by
  unfold handleIpc
  split
  · exact ⟨rfl, rfl, rfl, rfl, rfl, rfl⟩
  · exact frame_receiveMessage hid _ _ _ _

theorem frame_tickBridge (ops : RpcTable) (hops : OpsPreserveFrame ops)
    (s : OrchState) : FramePreserved s (tickBridge ops s).1 := by
  have h : FramePreserved { s with clock := s.clock + 1 }
      (handleHttpRpc ops { s with clock := s.clock + 1 }) :=
    frame_handleHttpRpc ops hops { s with clock := s.clock + 1 }
  exact h

theorem frame_tickIpc (hid : String → Nat) (s : OrchState) :
    FramePreserved s (tickIpc hid s).1 := by
  have h : FramePreserved { s with clock := s.clock + 1 }
      (handleIpc hid { s with clock := s.clock + 1 }) :=
    frame_handleIpc hid { s with clock := s.clock + 1 }
  exact h

theorem handleState_consumes (k : Nat) (s : OrchState) (r d : Snap)
    (hrun : s.running = true) (hrad : s.radQueue = [r])
    (hdire : s.direQueue = [d]) :
    ∃ s3, handleState (k + 1) s = some s3
      ∧ s3.radQueue = [] ∧ s3.direQueue = []
      ∧ s3.appliedRad = s.appliedRad ++ [r]
      ∧ s3.appliedDire = s.appliedDire ++ [d]
      ∧ s3.pendingReady = s.pendingReady ∧ s3.ready = s.ready := by
  unfold handleState readClock
  dsimp only
  rw [hrun, hrad, hdire]
  simp only [getNextLoop]
  exact ⟨_, rfl, rfl, rfl, rfl, rfl, rfl, rfl⟩

/-- C8 (amended): given the session running (no winner recorded), exactly
one snapshot queued on each side before the tick, and every recognized
control-bridge operation preserving the snapshot-step footprint (running
flag, win value, side queues, applied logs) — in particular no dispatched
`stop` — the tick completes and consumes exactly one snapshot from each
side queue: both queues are drained and exactly the queued snapshot of
each side is applied. -/
theorem C8_amended_holds (ops : RpcTable) (hid : String → Nat)
    (fuel : Nat) (s : OrchState) (r d : Snap)
    (hops : OpsPreserveFrame ops)
    (hrun : s.running = true) (hwin : s.win = none)
    (hrad : s.radQueue = [r]) (hdire : s.direQueue = [d])
    (hfuel : 1 ≤ fuel) :
    ∃ s2 stop, (tick ops hid fuel s).1 = some (s2, stop)
      ∧ s2.radQueue = [] ∧ s2.direQueue = []
      ∧ s2.appliedRad = s.appliedRad ++ [r]
      ∧ s2.appliedDire = s.appliedDire ++ [d] := by
  obtain ⟨k, rfl⟩ : ∃ k, fuel = k + 1 := ⟨fuel - 1, by omega⟩
  have hterm : tickTerminal s = ((s, false), [TickPhase.terminal]) := by
    simp [tickTerminal, hrun, hwin]
  have hframe : FramePreserved s (tickIpc hid (tickBridge ops s).1).1 :=
    frame_trans (frame_tickBridge ops hops s) (frame_tickIpc hid (tickBridge ops s).1)
  obtain ⟨f1, f2, f3, f4, f5, f6⟩ := hframe
  obtain ⟨s3, hs3, e1, e2, e3, e4, _, _⟩ :=
    handleState_consumes k (tickIpc hid (tickBridge ops s).1).1 r d
      (f1.trans hrun) (f3.trans hrad) (f4.trans hdire)
  unfold tick tickState
  rw [hterm]
  dsimp only
  rw [hs3]
  refine ⟨_, _, rfl, ?_, ?_, ?_, ?_⟩ <;>
    split_ifs <;> simp [e1, e2, e3, e4, f5, f6]

/-- Witness for C8 (amended): a concrete running session with snapshot 11
queued on the radiant side and 22 on the dire side, under the empty
operation table (which trivially preserves the footprint). -/
theorem C8_witness :
    ∃ s2 stop, (tick ops0 hid0 1 sRD).1 = some (s2, stop)
      ∧ s2.radQueue = [] ∧ s2.direQueue = []
      ∧ s2.appliedRad = sRD.appliedRad ++ [11]
      ∧ s2.appliedDire = sRD.appliedDire ++ [22] :=
  C8_amended_holds ops0 hid0 1 sRD 11 22
    (fun _ f h => Option.noConfusion h) rfl rfl rfl rfl (by decide)

/-- C8 is false as stated: with the session running, no winner recorded
and one snapshot queued per side, a pending control-bridge `stop` request
makes the bridge step set `running` to False before the snapshot step of
the same tick; the polling loop then returns no snapshots, and the tick
completes having consumed ZERO snapshots from either side queue (and
applied none) — not exactly one per side. -/
theorem C8_counterexample :
    sStop.running = true ∧ sStop.win = none
    ∧ sStop.radQueue = [11] ∧ sStop.direQueue = [22]
    ∧ ((tick ops1 hid0 1 sStop).1.map
        (fun x => (x.1.radQueue, x.1.direQueue, x.1.appliedRad, x.1.appliedDire)))
      = some ([11], [22], [], []) :=
  ⟨rfl, rfl, rfl, rfl, rfl⟩

end LuaFun
